import Mathlib

/-!
Shallow embedding of the video-uploader repository.

Server side (src/unnamed/part_000 holds three Next.js route handlers):
  * create-multipart : computes a part count from the declared size with a
    fixed 10 MiB part size, rejects with 400 when it exceeds 10000, otherwise
    starts a multipart upload and presigns one URL per part;
  * complete-multipart : forwards the received parts list verbatim to the
    storage backend completion call and resolves a public file URL;
  * abort-multipart : validates presence of key and uploadId, then asks the
    backend to abort.

Server side (src/app/api/submit/route.js): the submission notifier, with its
sender-address parser (buildFromAddress), email validator (isValidEmail), and
status classification of failures (400/502/500/200).

Client side (src/app/page.js and src/unnamed/part_001): uploadFileToR2
slices the file into byte ranges, PUTs each part, collects ETags and
finalizes; validateBeforeSubmit/handleSubmit gate the submission.

JavaScript numbers are modelled as Nat (sizes are nonnegative integers and
stay far below 2^53, so Math.ceil (size / P) agrees with Nat ceiling
division).  Strings are Lean strings; absent-or-string JS values are
Option String, with JS truthiness (undefined and "" are falsy) made
explicit.  Network effects are modelled by returning the list of storage
backend operations a handler issues alongside its response.
-/

namespace VU

/-- Truthiness of a JS value that is either a string or absent:
`undefined` and `""` are falsy. -/
def jsTruthyStr (o : Option String) : Bool :=
  match o with
  | some s => !(s == "")
  | none => false

/-- JS `x || d` for a string-or-absent `x`: yields `d` when `x` is
`undefined` or `""`. -/
def jsOrStr (o : Option String) (d : String) : String :=
  match o with
  | some s => if s == "" then d else s
  | none => d

/-- Storage-backend operations a route handler can issue (the S3 commands
sent through `s3.send`; presigning URLs is local and issues no call). -/
inductive BackendOp where
  | createMultipart (key : String)
  | completeMultipart (key uploadId : String) (parts : List (String × Nat))
  | abortMultipart (key uploadId : String)
deriving Repr, DecidableEq

/-! ### create-multipart (third handler in src/unnamed/part_000) -/

/-- `const PART_SIZE = 10 * 1024 * 1024` — the fixed 10 MiB part size. -/
def PART_SIZE : Nat := 10 * 1024 * 1024

/-- Nat ceiling division `ceil (s / p)`, the value of
`Math.ceil (size / partSize)` for nonnegative integer inputs. -/
def ceilDiv (s p : Nat) : Nat := (s + p - 1) / p

/-- `const partCount = Math.ceil (size / PART_SIZE)`. -/
def partCountOf (size : Nat) : Nat := ceilDiv size PART_SIZE

/-- Success body of create-multipart: `{uploadId, key, partSize, urls}`.
A presigned URL is represented by the part number it signs. -/
structure CreateOk where
  uploadId : String
  key : String
  partSize : Nat
  urls : List Nat
deriving Repr, DecidableEq

/-- Result of the create-multipart handler. -/
inductive CreateResult where
  | reject (status : Nat) (error : String)
  | ok (r : CreateOk)
deriving Repr, DecidableEq

/-- The create-multipart POST handler.  `key` stands for the generated
`uploads/...` object key and `uploadId` for the backend-assigned handle;
both are opaque here.  Returns the backend operations issued and the
response. -/
def createHandler (size : Nat) (key uploadId : String) :
    List BackendOp × CreateResult :=
  let partCount := partCountOf size
  if partCount > 10000 then
    ([], .reject 400 "File too large")
  else
    ([.createMultipart key],
     .ok { uploadId := uploadId, key := key, partSize := PART_SIZE,
           urls := (List.range partCount).map (fun i => i + 1) })

/-! ### complete-multipart (second handler in src/unnamed/part_000) -/

/-- Response body of complete-multipart: `{ok: true, fileUrl, key}`. -/
structure CompleteResp where
  ok : Bool
  fileUrl : String
  key : String
deriving Repr, DecidableEq

/-- `base.replace (new RegExp for one-or-more trailing slashes), ""`:
removes every trailing `/` from the string. -/
def stripTrailingSlashes (s : String) : String :=
  ⟨(s.data.reverse.dropWhile (fun c => c == '/')).reverse⟩

/-- The complete-multipart POST handler.  `base` models
`process.env.PUBLIC_FILE_BASE_URL` (absent or a string), `location` the
`Location` field of the backend completion response.  The parts list is
forwarded verbatim: `MultipartUpload: { Parts: parts }`.  The file URL is
`base ? stripped-base/key : completed.Location || key`. -/
def completeHandler (key uploadId : String) (parts : List (String × Nat))
    (base : Option String) (location : Option String) :
    List BackendOp × CompleteResp :=
  let fileUrl :=
    if jsTruthyStr base then
      stripTrailingSlashes (jsOrStr base "") ++ "/" ++ key
    else
      jsOrStr location key
  ([.completeMultipart key uploadId parts],
   { ok := true, fileUrl := fileUrl, key := key })

/-! ### abort-multipart (first handler in src/unnamed/part_000) -/

/-- Response of the abort handler: `{ok}` or `{ok:false, error}` with its
HTTP status. -/
structure AbortResp where
  ok : Bool
  error : Option String
  status : Nat
deriving Repr, DecidableEq

/-- The abort-multipart POST handler.  `backend` is the outcome of
`s3.send (AbortMultipartUploadCommand ...)`: `.ok ()` on success, or
`.error msg` when it throws an `Error` with that message.  The guard is the
source's `if (!key || !uploadId) return 400` with the branch order
inverted. -/
def abortHandler (key uploadId : Option String) (backend : Except String Unit) :
    List BackendOp × AbortResp :=
  if jsTruthyStr key && jsTruthyStr uploadId then
    let k := jsOrStr key ""
    let u := jsOrStr uploadId ""
    match backend with
    | .ok _ => ([.abortMultipart k u], { ok := true, error := none, status := 200 })
    | .error msg => ([.abortMultipart k u], { ok := false, error := some msg, status := 500 })
  else
    ([], { ok := false,
           error := some "Both key and uploadId are required to abort a multipart upload.",
           status := 400 })

/-! ### Email validation and the sender-address parser
(src/app/api/submit/route.js) -/

/-- JS regex whitespace class over its ASCII members (space, tab, newline,
carriage return, vertical tab, form feed). -/
def isJsWs (c : Char) : Bool :=
  c == ' ' || c == '\t' || c == '\n' || c == '\r' ||
  c == Char.ofNat 11 || c == Char.ofNat 12

/-- The domain part of the email regex must factor as `X.Y` with `X`, `Y`
nonempty, i.e. some `.` sits strictly inside the string. -/
def hasInnerDot (d : List Char) : Bool :=
  ((d.drop 1).dropLast).contains '.'

/-- Split a character list at every occurrence of a separator character
(the behaviour of `splitOn` with a one-character separator). -/
def splitOnChar (c : Char) : List Char → List (List Char)
  | [] => [[]]
  | a :: rest =>
    match splitOnChar c rest with
    | [] => [[]]
    | piece :: pieces =>
      if a == c then [] :: piece :: pieces else (a :: piece) :: pieces

/-- The email regex of `isValidEmail`: one-or-more non-space-non-at
characters, `@`, then a domain of the same class containing an inner dot.
Exactly one `@` means splitting on `@` gives two pieces. -/
def emailPattern (s : String) : Bool :=
  match splitOnChar '@' s.data with
  | [l, d] =>
    !l.isEmpty && l.all (fun c => !(isJsWs c)) &&
    !d.isEmpty && d.all (fun c => !(isJsWs c)) &&
    hasInnerDot d
  | _ => false

/-- Remove trailing JS whitespace from a character list. -/
def rstripJsWs (l : List Char) : List Char :=
  (l.reverse.dropWhile isJsWs).reverse

/-- JS `String.prototype.trim`: strip whitespace from both ends. -/
def jsTrim (s : String) : String :=
  ⟨rstripJsWs (s.data.dropWhile isJsWs)⟩

/-- `isValidEmail` on a string value: trims, then tests the pattern.
(Non-string values are handled at each call site.) -/
def isValidEmailStr (v : String) : Bool := emailPattern (jsTrim v)

/-- The name-and-angle-bracket regex of `buildFromAddress`: a lazy
one-or-more-character group, optional whitespace, `<`, one-or-more
non-angle-bracket characters, `>` at the end.  A match forces: the string
ends in `>`; the bracketed content sits after the last `<`, is nonempty and
contains no `>`; something precedes that `<`; and the lazy group (which
cannot cross a newline) is the preceding text with trailing whitespace
removed — so a newline there, outside trailing whitespace, kills the match.
Returns the trimmed capture groups. -/
def matchNameEmail (s : String) : Option (String × String) :=
  let cs := s.data
  if cs.getLast? == some '>' then
    let body := cs.dropLast
    let rev := body.reverse
    match rev.findIdx? (fun c => c == '<') with
    | some j =>
      let content := (rev.take j).reverse
      let pre := (rev.drop (j + 1)).reverse
      let nameCore := rstripJsWs pre
      if content.isEmpty || content.contains '>' then none
      else if pre.isEmpty then none
      else if nameCore.isEmpty then
        if pre.head? == some '\n' then none
        else some (jsTrim ⟨pre⟩, jsTrim ⟨content⟩)
      else if nameCore.contains '\n' then none
      else some (jsTrim ⟨pre⟩, jsTrim ⟨content⟩)
    | none => none
  else none

/-- The single-quote character. -/
def squote : Char := Char.ofNat 39

/-- `buildFromAddress`: reads `FROM_EMAIL` and `FROM_NAME` (absent models a
non-string env value), trims, strips one layer of matching surrounding
quotes, accepts a bare valid email or a `Name <email>` form, and otherwise
returns null. -/
def buildFromAddress (fromEmailEnv fromNameEnv : Option String) : Option String :=
  let fe0 := match fromEmailEnv with | some s => jsTrim s | none => ""
  let fromName := match fromNameEnv with | some s => jsTrim s | none => ""
  if fe0 == "" then none
  else
    let fromEmail :=
      if (fe0.data.head? == some '"' && fe0.data.getLast? == some '"') ||
         (fe0.data.head? == some squote && fe0.data.getLast? == some squote) then
        jsTrim ⟨(fe0.data.drop 1).dropLast⟩
      else fe0
    if isValidEmailStr fromEmail then
      some (if fromName == "" then fromEmail
            else fromName ++ " <" ++ fromEmail ++ ">")
    else
      match matchNameEmail fromEmail with
      | some (namePart, emailPart) =>
        if isValidEmailStr emailPart then
          some (if namePart == "" then emailPart
                else namePart ++ " <" ++ emailPart ++ ">")
        else none
      | none => none

/-! ### Client part uploader — uploadFileToR2
(src/app/page.js and src/unnamed/part_001) -/

/-- What the part uploader sees of one part's PUT response: `ok` is the
fetch 2xx flag, `etag` the `ETag` response header (`none` when absent; the
two case-variant lookups in part_001 read the same header). -/
structure PartResp where
  ok : Bool
  etag : Option String
deriving Repr, DecidableEq

/-- Global regex replacement of the double-quote character by the empty
string (`etag.replace` with a global quote pattern): removes every `"`. -/
def removeQuotes (s : String) : String :=
  ⟨s.data.filter (fun c => !(c == '"'))⟩

/-- Part loop of uploadFileToR2 in src/app/page.js: on a non-ok response
throw; otherwise take the ETag header or the empty string, delete every
double quote, and push `{ETag, PartNumber: index + 1}`.  `idx` is the
0-based loop index; one response per presigned URL. -/
def collectPartsMain : List PartResp → Nat → Except String (List (String × Nat))
  | [], _ => .ok []
  | r :: rs, idx =>
    if r.ok then
      let etag := removeQuotes (jsOrStr r.etag "")
      match collectPartsMain rs (idx + 1) with
      | .ok tail => .ok ((etag, idx + 1) :: tail)
      | .error e => .error e
    else
      .error ("Failed to upload part " ++ toString (idx + 1))

/-- Part loop of uploadFileToR2 in src/unnamed/part_001: as above, but a
missing (or empty) ETag header throws, and no quote stripping happens. -/
def collectPartsAlt : List PartResp → Nat → Except String (List (String × Nat))
  | [], _ => .ok []
  | r :: rs, idx =>
    if r.ok then
      let etag := jsOrStr r.etag ""
      if etag == "" then .error "Upload part missing ETag."
      else
        match collectPartsAlt rs (idx + 1) with
        | .ok tail => .ok ((etag, idx + 1) :: tail)
        | .error e => .error e
    else
      .error ("Failed to upload part " ++ toString (idx + 1))

/-- The parts list the src/app/page.js uploader sends to
complete-multipart, or the error that aborts the file's upload before any
finalization. -/
def uploadFileMain (resps : List PartResp) : Except String (List (String × Nat)) :=
  collectPartsMain resps 0

/-- The parts list the src/unnamed/part_001 uploader sends to
complete-multipart, or the error that aborts the file's upload before any
finalization. -/
def uploadFileAlt (resps : List PartResp) : Except String (List (String × Nat)) :=
  collectPartsAlt resps 0

/-- `const totalParts = urls.length || 1` (JS `||` on numbers: 0 is falsy). -/
def totalPartsOf (nUrls : Nat) : Nat := if nUrls = 0 then 1 else nUrls

/-- The byte ranges uploadFileToR2 slices (identical in both variants):
for 0-based index `i`, `start = i * partSize`,
`end = min (start + partSize, file.size)`, part number `i + 1`.  Each
triple is (partNumber, start, stop). -/
def partRanges (size partSize nUrls : Nat) : List (Nat × Nat × Nat) :=
  (List.range (totalPartsOf nUrls)).map
    (fun i => (i + 1, i * partSize, min (i * partSize + partSize) size))

/-! ### Form controller — validateBeforeSubmit and handleSubmit
(src/app/page.js and src/unnamed/part_001) -/

/-- The text fields of the submission form (union of both variants; the
`email` field exists only in the part_001 variant and is ignored by the
src/app/page.js validator). -/
structure FormState where
  phoneNumber : String
  email : String
  playerFirstName : String
  playerLastName : String
  graduationYear : String
  clubTeamName : String
  clubTeamColors : String
  clubTeamNumber : String
  clubTeamPositions : String
  schoolTeamName : String
  schoolTeamColors : String
  schoolTeamNumber : String
  schoolTeamPositions : String
  honors : String
  videoCutInstructions : String
  videoLinks : String
deriving Repr, DecidableEq

/-- validateBeforeSubmit of src/app/page.js: returns the error message set
via setStatus, or none when validation passes.  Files are identified by
their synthetic keys. -/
def validateBeforeSubmitMain (f : FormState) (imageFiles videoFiles : List String) :
    Option String :=
  if jsTrim f.playerFirstName == "" || jsTrim f.playerLastName == "" then
    some "Player name is required."
  else if jsTrim f.videoCutInstructions == "" then
    some "Cut instructions are required."
  else if imageFiles.isEmpty then
    some "Please upload at least one image."
  else if videoFiles.isEmpty then
    some "Please upload at least one video."
  else none

/-- validateBeforeSubmit of src/unnamed/part_001: same checks with a
required email field in front. -/
def validateBeforeSubmitAlt (f : FormState) (imageFiles videoFiles : List String) :
    Option String :=
  if jsTrim f.email == "" then
    some "Email is required."
  else validateBeforeSubmitMain f imageFiles videoFiles

/-- Outcome of the gate at the top of handleSubmit. -/
inductive SubmitGate where
  | blocked (statusType statusMessage : String)
  | proceeding
deriving Repr, DecidableEq

/-- An outcome that blocked with an error-typed status. -/
def SubmitGate.isErrorBlocked : SubmitGate → Bool
  | .blocked t _ => t == "error"
  | .proceeding => false

/-- handleSubmit up to its first network interaction: when validation
fails, an error status is set and the handler returns with no request
issued (the Bool records whether any network request is reached); when it
passes, the upload loop immediately issues its first fetch. -/
def handleSubmitMain (f : FormState) (imageFiles videoFiles : List String) :
    SubmitGate × Bool :=
  match validateBeforeSubmitMain f imageFiles videoFiles with
  | some msg => (.blocked "error" msg, false)
  | none => (.proceeding, true)

/-- handleSubmit of the part_001 variant, same shape. -/
def handleSubmitAlt (f : FormState) (imageFiles videoFiles : List String) :
    SubmitGate × Bool :=
  match validateBeforeSubmitAlt f imageFiles videoFiles with
  | some msg => (.blocked "error" msg, false)
  | none => (.proceeding, true)

/-! ### Submission notifier — POST /api/submit
(src/app/api/submit/route.js) -/

/-- The `form.email` field of the submit payload: a string, absent, or a
non-string JS value. -/
inductive EmailField where
  | str (s : String)
  | absent
  | nonString
deriving Repr, DecidableEq

/-- The parsed submit payload (the fields the handler branches on). -/
structure Payload where
  formEmail : EmailField
  videoUrls : List String
  imageUrls : List String
deriving Repr, DecidableEq

/-- `const submitterEmail = typeof form.email === "string" ? form.email.trim() : ""`. -/
def submitterEmailOf (p : Payload) : String :=
  match p.formEmail with
  | .str s => jsTrim s
  | _ => ""

/-- The subject line:
`New video submission` + optional ` from <submitterEmail>` + ` · #<ticketId>`. -/
def mkSubject (submitterEmail ticketId : String) : String :=
  "New video submission" ++
    (if submitterEmail == "" then "" else " from " ++ submitterEmail) ++
    " · #" ++ ticketId

/-- The email envelope handed to `resend.emails.send` (html body omitted;
`reply_to` is spread in only when `replyTo` is truthy, and a valid email is
never the empty string). -/
structure Envelope where
  fromAddr : String
  toAddr : String
  subject : String
  replyTo : Option String
deriving Repr, DecidableEq

/-- Envelope construction for a payload: reply-to is the trimmed
`form.email` exactly when it validates; the subject carries it exactly when
it is nonempty.  `ticketId` models the random UUID slice. -/
def mkEnvelope (staticFrom ownerEmail : String) (p : Payload) (ticketId : String) :
    Envelope :=
  let se := submitterEmailOf p
  { fromAddr := staticFrom, toAddr := ownerEmail,
    subject := mkSubject se ticketId,
    replyTo := if isValidEmailStr se then some se else none }

/-- Outcome of the `resend.emails.send` call: a response whose `error`
field is set (with its optional message), a success response (with its
optional id), or a thrown exception. -/
inductive SendOutcome where
  | errorResp (msg : Option String)
  | success (id : Option String)
  | thrown (msg : String)
deriving Repr, DecidableEq

/-- A JSON HTTP response of the notifier, reduced to the claimed fields. -/
structure HttpResp where
  status : Nat
  ok : Bool
  id : Option String
  error : Option String
deriving Repr, DecidableEq

/-- The trimmed `OWNER_EMAIL` environment value
(`typeof process.env.OWNER_EMAIL === "string" ? trim : ""`). -/
def ownerEmailOf (o : Option String) : String :=
  match o with
  | some s => jsTrim s
  | none => ""

/-- The POST /api/submit handler.  Inputs: the four environment values,
the JSON body parse outcome, the ticket id, and the provider outcome used
if a send is attempted.  Returns the response and the envelope given to the
provider (`none` when no provider call is made). -/
def submitHandler (apiKey fromEmailEnv fromNameEnv ownerEmailEnv : Option String)
    (body : Except String Payload) (ticketId : String) (send : SendOutcome) :
    HttpResp × Option Envelope :=
  if !(jsTruthyStr apiKey) then
    ({ status := 400, ok := false, id := none,
       error := some "RESEND_API_KEY not configured." }, none)
  else
    match buildFromAddress fromEmailEnv fromNameEnv with
    | none =>
      ({ status := 400, ok := false, id := none,
         error := some "FROM_EMAIL must be a valid email or formatted as Name <email@example.com>." },
       none)
    | some staticFrom =>
      let ownerEmail := ownerEmailOf ownerEmailEnv
      if !(isValidEmailStr ownerEmail) then
        ({ status := 400, ok := false, id := none,
           error := some "OWNER_EMAIL must be configured with a valid email address." },
         none)
      else
        match body with
        | .error _ =>
          ({ status := 400, ok := false, id := none,
             error := some "Invalid JSON payload." }, none)
        | .ok p =>
          let env := mkEnvelope staticFrom ownerEmail p ticketId
          match send with
          | .errorResp m =>
            ({ status := 502, ok := false, id := none,
               error := some (jsOrStr m "Resend reported an error.") }, some env)
          | .success i =>
            ({ status := 200, ok := true, id := i, error := none }, some env)
          | .thrown _ =>
            ({ status := 500, ok := false, id := none,
               error := some "Failed to send email with Resend." }, some env)

/-! ## Supporting lemmas -/

/-- ceilDiv gives an upper multiple: `s ≤ ceil (s / p) * p`. -/
lemma le_ceilDiv_mul (s p : Nat) (hp : 0 < p) : s ≤ ceilDiv s p * p := by
  unfold ceilDiv
  have h := Nat.div_add_mod (s + p - 1) p
  have hm : (s + p - 1) % p < p := Nat.mod_lt _ hp
  rw [Nat.mul_comm]
  generalize hA : p * ((s + p - 1) / p) = a at h ⊢
  omega

/-- ceilDiv is minimal among multiples covering `s`. -/
lemma ceilDiv_le_of_le_mul {s p m : Nat} (hp : 0 < p) (h : s ≤ m * p) :
    ceilDiv s p ≤ m := by
  unfold ceilDiv
  have h2 : s + p - 1 < (m + 1) * p := by
    have h3 : (m + 1) * p = m * p + p := Nat.succ_mul m p
    omega
  have h4 : (s + p - 1) / p < m + 1 := (Nat.div_lt_iff_lt_mul hp).mpr h2
  omega

/-- Below the ceiling, multiples stay under `s`. -/
lemma mul_lt_of_lt_ceilDiv {s p k : Nat} (hp : 0 < p) (h : k < ceilDiv s p) :
    k * p < s := by
  unfold ceilDiv at h
  have h3 : (k + 1) * p ≤ s + p - 1 := (Nat.le_div_iff_mul_le hp).mp h
  have h4 : k * p + p ≤ s + p - 1 := by rw [Nat.succ_mul] at h3; exact h3
  generalize hA : k * p = a at h4 ⊢
  omega

/-- A positive size needs at least one part. -/
lemma ceilDiv_pos {s p : Nat} (hs : 0 < s) (hp : 0 < p) : 0 < ceilDiv s p := by
  unfold ceilDiv
  have : 1 * p ≤ s + p - 1 := by omega
  exact (Nat.le_div_iff_mul_le hp).mpr this

/-- Appending a slash does not change the stripped base. -/
lemma stripTrailingSlashes_append_slash (b : String) :
    stripTrailingSlashes (b ++ "/") = stripTrailingSlashes b := by
  obtain ⟨l⟩ := b
  simp [stripTrailingSlashes, List.dropWhile]

/-- A base not ending in a slash is unchanged by stripping. -/
lemma stripTrailingSlashes_of_no_slash (b : String)
    (h : b.data.getLast? ≠ some '/') : stripTrailingSlashes b = b := by
  obtain ⟨l⟩ := b
  unfold stripTrailingSlashes
  rcases hr : l.reverse with _ | ⟨a, t⟩
  · have : l = [] := by simpa using congrArg List.reverse hr
    simp [this]
  · have ha : a ≠ '/' := by
      intro hEq
      apply h
      have : l.getLast? = l.reverse.head? := (List.head?_reverse l).symm
      rw [String.data]
      simp only [this, hr, hEq, List.head?_cons]
    have hb : (a == '/') = false := by simp [ha]
    have hd : (a :: t).dropWhile (fun c => c == '/') = a :: t := by
      simp [List.dropWhile, hb]
    rw [hd, ← hr, List.reverse_reverse]

/-! ## Claim theorems -/

/-- C1: for a create-multipart request of declared size `size`, the
initiator presigns exactly `ceil (size / PART_SIZE)` part URLs for the
fixed 10 MiB part size (returned verbatim as `partSize`), and it responds
400 with an error body while issuing no storage-backend call exactly when
that count exceeds 10000 (in which case, and only in which case, no call is
made).  The final conjunct certifies that `partCountOf` is the ceiling of
`size / PART_SIZE`: the least part count whose parts cover the size. -/
theorem create_multipart_count_and_limit (size : Nat) (key uploadId : String) :
    ((createHandler size key uploadId).2 = .reject 400 "File too large" ↔
        partCountOf size > 10000)
  ∧ (partCountOf size > 10000 → (createHandler size key uploadId).1 = [])
  ∧ (partCountOf size ≤ 10000 →
        (createHandler size key uploadId).1 = [.createMultipart key])
  ∧ (∀ r, (createHandler size key uploadId).2 = .ok r →
        r.urls.length = partCountOf size ∧ r.partSize = PART_SIZE)
  ∧ (size ≤ partCountOf size * PART_SIZE
      ∧ ∀ m, size ≤ m * PART_SIZE → partCountOf size ≤ m) := by
  have hp : 0 < PART_SIZE := by decide
  refine ⟨?_, ?_, ?_, ?_, le_ceilDiv_mul size PART_SIZE hp,
    fun m hm => ceilDiv_le_of_le_mul hp hm⟩
  · by_cases h : partCountOf size > 10000 <;> simp [createHandler, h]
  · intro h; simp [createHandler, h]
  · intro h
    have h2 : ¬ partCountOf size > 10000 := by omega
    simp [createHandler, h2]
  · intro r hr
    by_cases h : partCountOf size > 10000
    · simp [createHandler, h] at hr
    · simp [createHandler, h] at hr
      rw [← hr]
      simp

/-- C1 witness: at a 25 MiB size the handler issues its backend call and
returns three presigned URLs with the 10 MiB part size; at a size of 10001
full parts it issues none. -/
theorem create_multipart_count_and_limit_witness :
    (createHandler 26214400 "k" "u").1 = [.createMultipart "k"]
  ∧ ((createHandler 26214400 "k" "u").2 =
       .ok { uploadId := "u", key := "k", partSize := PART_SIZE, urls := [1, 2, 3] } →
        ([1, 2, 3] : List Nat).length = partCountOf 26214400 ∧ PART_SIZE = PART_SIZE)
  ∧ (createHandler (10485760 * 10001) "k" "u").1 = [] := by
  refine ⟨(create_multipart_count_and_limit 26214400 "k" "u").2.2.1 (by decide),
    fun h => ?_,
    (create_multipart_count_and_limit (10485760 * 10001) "k" "u").2.1 (by decide)⟩
  have h2 := (create_multipart_count_and_limit 26214400 "k" "u").2.2.2.1 _ h
  simpa using h2

/-- Part numbers collected by the src/app/page.js part loop are contiguous
from `idx + 1`, one per response. -/
lemma collectPartsMain_map_snd :
    ∀ (resps : List PartResp) (idx : Nat) (parts : List (String × Nat)),
      collectPartsMain resps idx = .ok parts →
      parts.map Prod.snd = List.range' (idx + 1) resps.length := by
  intro resps
  induction resps with
  | nil =>
    intro idx parts h
    simp only [collectPartsMain] at h
    cases h
    simp
  | cons r rs ih =>
    intro idx parts h
    simp only [collectPartsMain] at h
    by_cases hr : r.ok = true
    · rw [if_pos hr] at h
      rcases heq : collectPartsMain rs (idx + 1) with e | tail
      · rw [heq] at h; cases h
      · rw [heq] at h
        cases h
        have ht := ih (idx + 1) tail heq
        simp only [List.map_cons, ht, List.length_cons]
        rw [List.range'_succ]
    · rw [if_neg hr] at h; cases h

/-- Same for the src/unnamed/part_001 part loop. -/
lemma collectPartsAlt_map_snd :
    ∀ (resps : List PartResp) (idx : Nat) (parts : List (String × Nat)),
      collectPartsAlt resps idx = .ok parts →
      parts.map Prod.snd = List.range' (idx + 1) resps.length := by
  intro resps
  induction resps with
  | nil =>
    intro idx parts h
    simp only [collectPartsAlt] at h
    cases h
    simp
  | cons r rs ih =>
    intro idx parts h
    simp only [collectPartsAlt] at h
    by_cases hr : r.ok = true
    · rw [if_pos hr] at h
      by_cases he : (jsOrStr r.etag "" == "") = true
      · rw [if_pos he] at h; cases h
      · rw [if_neg he] at h
        rcases heq : collectPartsAlt rs (idx + 1) with e | tail
        · rw [heq] at h; cases h
        · rw [heq] at h
          cases h
          have ht := ih (idx + 1) tail heq
          simp only [List.map_cons, ht, List.length_cons]
          rw [List.range'_succ]
    · rw [if_neg hr] at h; cases h

/-- C2 counterexample: with the parts list arriving as
`[{ETag:"b",PartNumber:2},{ETag:"a",PartNumber:1}]`, the finalizer submits
exactly that list to the storage backend completion call — PartNumber 2 is
listed before PartNumber 1, so no ascending reordering happens. -/
theorem complete_multipart_no_sort_counterexample :
    (completeHandler "k" "u" [("b", 2), ("a", 1)] none none).1 =
      [.completeMultipart "k" "u" [("b", 2), ("a", 1)]]
  ∧ [(("b" : String), (2 : Nat)), ("a", 1)] ≠ [("a", 1), ("b", 2)] := by
  exact ⟨rfl, by decide⟩

/-- C2 amended: the finalizer forwards the received parts list verbatim to
the storage backend, in arrival order and without reordering; ascending
PartNumber order therefore holds exactly because the part uploader always
supplies the parts as `1, 2, ..., n` (second conjunct, for either client
variant). -/
theorem complete_multipart_forwards_in_arrival_order
    (key uploadId : String) (parts : List (String × Nat))
    (base location : Option String) :
    ((completeHandler key uploadId parts base location).1 =
        [.completeMultipart key uploadId parts])
  ∧ (∀ resps sent, uploadFileMain resps = .ok sent →
        sent.map Prod.snd = List.range' 1 resps.length)
  ∧ (∀ resps sent, uploadFileAlt resps = .ok sent →
        sent.map Prod.snd = List.range' 1 resps.length) := by
  refine ⟨rfl, fun resps sent h => ?_, fun resps sent h => ?_⟩
  · simpa using collectPartsMain_map_snd resps 0 sent h
  · simpa using collectPartsAlt_map_snd resps 0 sent h

/-- C2 amended witness: a concrete two-part upload produces the ascending
list `[1, 2]`, which the finalizer forwards unchanged. -/
theorem complete_multipart_forwards_in_arrival_order_witness :
    ([(("a" : String), (1 : Nat)), ("b", 2)].map Prod.snd = List.range' 1 2)
  ∧ (completeHandler "k" "u" [("a", 1), ("b", 2)] none none).1 =
      [.completeMultipart "k" "u" [("a", 1), ("b", 2)]] := by
  exact ⟨(complete_multipart_forwards_in_arrival_order "k" "u" [("a", 1), ("b", 2)]
            none none).2.1 [⟨true, some "a"⟩, ⟨true, some "b"⟩] [("a", 1), ("b", 2)] rfl,
         (complete_multipart_forwards_in_arrival_order "k" "u" [("a", 1), ("b", 2)]
            none none).1⟩

/-- C3: the finalizer's fileUrl is the configured base with every trailing
slash removed, then `/`, then the key, whenever a base is configured (any
nonempty base, and stripping removes all trailing slashes and nothing
else); otherwise the backend-reported Location when nonempty; otherwise the
bare key. -/
theorem complete_multipart_fileurl (key uploadId b loc : String)
    (parts : List (String × Nat)) :
    (b ≠ "" → ∀ location : Option String,
        (completeHandler key uploadId parts (some b) location).2.fileUrl =
          stripTrailingSlashes b ++ "/" ++ key)
  ∧ (loc ≠ "" →
        (completeHandler key uploadId parts none (some loc)).2.fileUrl = loc
      ∧ (completeHandler key uploadId parts (some "") (some loc)).2.fileUrl = loc)
  ∧ ((completeHandler key uploadId parts none (some "")).2.fileUrl = key)
  ∧ ((completeHandler key uploadId parts none none).2.fileUrl = key)
  ∧ (stripTrailingSlashes (b ++ "/") = stripTrailingSlashes b)
  ∧ (b.data.getLast? ≠ some '/' → stripTrailingSlashes b = b) := by
  refine ⟨fun hb location => ?_, fun hl => ⟨?_, ?_⟩, ?_, ?_,
    stripTrailingSlashes_append_slash b, stripTrailingSlashes_of_no_slash b⟩
  · simp [completeHandler, jsTruthyStr, jsOrStr, hb]
  · simp [completeHandler, jsTruthyStr, jsOrStr, hl]
  · simp [completeHandler, jsTruthyStr, jsOrStr, hl]
  · simp [completeHandler, jsTruthyStr, jsOrStr]
  · simp [completeHandler, jsTruthyStr, jsOrStr]

/-- C3 witness: a base with two trailing slashes yields the stripped base
joined to the key; a nonempty Location is used when no base is set; and a
slash-free base is left intact by stripping. -/
theorem complete_multipart_fileurl_witness :
    ((completeHandler "uploads/x.png" "u1" [] (some "https://cdn.example.com//")
        none).2.fileUrl = "https://cdn.example.com/uploads/x.png")
  ∧ ((completeHandler "uploads/x.png" "u1" [] none
        (some "https://backend/obj")).2.fileUrl = "https://backend/obj")
  ∧ stripTrailingSlashes "https://cdn.example.com" = "https://cdn.example.com" := by
  refine ⟨((complete_multipart_fileurl "uploads/x.png" "u1"
      "https://cdn.example.com//" "x" []).1 (by decide) none).trans (by decide),
    ((complete_multipart_fileurl "uploads/x.png" "u1" "x"
      "https://backend/obj" []).2.1 (by decide)).1,
    (complete_multipart_fileurl "k" "u" "https://cdn.example.com" "x" []).2.2.2.2.2
      (by decide)⟩

/-- C6: an abort request with an absent or falsy key or uploadId gets a 400
`{ok:false, error}` response and triggers no storage-backend call; with
both present the handler issues the abort call and answers `{ok:true}`
(status 200) on backend success and `{ok:false, error}` with status 500 on
backend failure. -/
theorem abort_multipart_params_and_statuses (key uploadId : Option String)
    (backend : Except String Unit) :
    (jsTruthyStr key = false ∨ jsTruthyStr uploadId = false →
        abortHandler key uploadId backend =
          ([], { ok := false,
                 error := some "Both key and uploadId are required to abort a multipart upload.",
                 status := 400 }))
  ∧ (∀ k u, key = some k → uploadId = some u → k ≠ "" → u ≠ "" →
        (backend = .ok () →
            abortHandler key uploadId backend =
              ([.abortMultipart k u], { ok := true, error := none, status := 200 }))
      ∧ (∀ msg, backend = .error msg →
            abortHandler key uploadId backend =
              ([.abortMultipart k u], { ok := false, error := some msg, status := 500 }))) := by
  constructor
  · intro h
    have hc : (jsTruthyStr key && jsTruthyStr uploadId) = false := by
      rcases h with h | h <;> simp [h]
    simp [abortHandler, hc]
  · intro k u hk hu hk0 hu0
    subst hk hu
    have hc : (jsTruthyStr (some k) && jsTruthyStr (some u)) = true := by
      simp [jsTruthyStr, hk0, hu0]
    constructor
    · intro hb
      subst hb
      simp [abortHandler, hc, jsOrStr, hk0, hu0]
    · intro msg hb
      subst hb
      simp [abortHandler, hc, jsOrStr, hk0, hu0]

/-- C6 witness: a missing uploadId yields the 400 response with no backend
call; present parameters yield 200 on success and 500 with the thrown
message on failure. -/
theorem abort_multipart_params_and_statuses_witness :
    (abortHandler (some "k") none (.ok ()) =
        ([], { ok := false,
               error := some "Both key and uploadId are required to abort a multipart upload.",
               status := 400 }))
  ∧ (abortHandler (some "k") (some "u") (.ok ()) =
        ([.abortMultipart "k" "u"], { ok := true, error := none, status := 200 }))
  ∧ (abortHandler (some "k") (some "u") (.error "boom") =
        ([.abortMultipart "k" "u"], { ok := false, error := some "boom", status := 500 })) := by
  refine ⟨(abort_multipart_params_and_statuses (some "k") none (.ok ())).1
      (Or.inr (by decide)), ?_, ?_⟩
  · exact (((abort_multipart_params_and_statuses (some "k") (some "u") (.ok ())).2
      "k" "u" rfl rfl (by decide) (by decide)).1 rfl)
  · exact (((abort_multipart_params_and_statuses (some "k") (some "u")
      (.error "boom")).2 "k" "u" rfl rfl (by decide) (by decide)).2 "boom" rfl)

/-- The first `k` byte-range chunks concatenate to the byte interval
`[0, min (k * p) s)`. -/
lemma chunks_cover (s p : Nat) (hp : 0 < p) :
    ∀ k, k ≤ ceilDiv s p →
      (List.range k).flatMap
          (fun i => List.range' (i * p) (min (i * p + p) s - i * p)) =
        List.range' 0 (min (k * p) s) := by
  intro k
  induction k with
  | zero => simp
  | succ k ih =>
    intro hk
    have hk1 : k ≤ ceilDiv s p := Nat.le_of_succ_le hk
    have hkP : k * p < s := mul_lt_of_lt_ceilDiv hp hk
    rw [List.range_succ, List.flatMap_append, ih hk1]
    have hmin : min (k * p) s = k * p := Nat.min_eq_left (Nat.le_of_lt hkP)
    have hle : k * p ≤ min (k * p + p) s :=
      Nat.le_min.mpr ⟨Nat.le_add_right _ _, Nat.le_of_lt hkP⟩
    rw [hmin]
    have happ :
        List.range' 0 (k * p) ++ List.range' (0 + k * p) (min (k * p + p) s - k * p) =
          List.range' 0 ((min (k * p + p) s - k * p) + k * p) :=
      List.range'_append_1 0 (k * p) (min (k * p + p) s - k * p)
    rw [Nat.zero_add] at happ
    simp only [List.flatMap_cons, List.flatMap_nil, List.append_nil]
    rw [happ, Nat.sub_add_cancel hle, Nat.succ_mul]

/-- C7: for a file of size `S > 0` split with part size `P > 0`, with the
initiator's URL count `ceil (S / P)`, the uploader's parts have PartNumbers
exactly `1..ceil (S / P)` (contiguous, ascending, no gaps or duplicates),
part `i` covers bytes `[(i-1)·P, min (i·P, S))`, the ranges concatenate to
exactly the whole file `[0, S)`, and a successful part loop (either client
variant) records exactly one ETag per part number `1..ceil (S / P)`. -/
theorem part_uploader_ranges_partition (S P : Nat) (hS : 0 < S) (hP : 0 < P) :
    ((partRanges S P (ceilDiv S P)).map (fun q => q.1) =
        List.range' 1 (ceilDiv S P))
  ∧ (∀ q ∈ partRanges S P (ceilDiv S P),
        q.2.1 = (q.1 - 1) * P ∧ q.2.2 = min (q.1 * P) S)
  ∧ ((partRanges S P (ceilDiv S P)).flatMap
        (fun q => List.range' q.2.1 (q.2.2 - q.2.1)) = List.range S)
  ∧ (∀ resps parts, resps.length = ceilDiv S P →
        collectPartsMain resps 0 = .ok parts →
        parts.map Prod.snd = List.range' 1 (ceilDiv S P))
  ∧ (∀ resps parts, resps.length = ceilDiv S P →
        collectPartsAlt resps 0 = .ok parts →
        parts.map Prod.snd = List.range' 1 (ceilDiv S P)) := by
  have hn : ceilDiv S P ≠ 0 := Nat.pos_iff_ne_zero.mp (ceilDiv_pos hS hP)
  have htot : totalPartsOf (ceilDiv S P) = ceilDiv S P := by
    simp [totalPartsOf, hn]
  refine ⟨?_, ?_, ?_, ?_, ?_⟩
  · simp only [partRanges, htot, List.map_map]
    rw [List.range'_eq_map_range]
    exact List.map_congr_left (fun i _ => by simp [Nat.add_comm])
  · intro q hq
    simp only [partRanges, htot, List.mem_map] at hq
    obtain ⟨i, _, hi⟩ := hq
    subst hi
    constructor
    · simp
    · simp [Nat.succ_mul]
  · simp only [partRanges, htot, List.flatMap_map]
    have hcover := chunks_cover S P hP (ceilDiv S P) (Nat.le_refl _)
    have hminS : min (ceilDiv S P * P) S = S :=
      Nat.min_eq_right (le_ceilDiv_mul S P hP)
    rw [List.range_eq_range' S]
    rw [hminS] at hcover
    exact hcover
  · intro resps parts hlen h
    have := collectPartsMain_map_snd resps 0 parts h
    rwa [hlen] at this
  · intro resps parts hlen h
    have := collectPartsAlt_map_snd resps 0 parts h
    rwa [hlen] at this

/-- C7 witness: a 25-byte file with 10-byte parts splits into parts 1, 2, 3
with ranges [0,10), [10,20), [20,25) covering the file, and a successful
three-part loop records ETags for exactly parts 1, 2, 3. -/
theorem part_uploader_ranges_partition_witness :
    ((partRanges 25 10 (ceilDiv 25 10)).map (fun q => q.1) =
        List.range' 1 (ceilDiv 25 10))
  ∧ ((partRanges 25 10 (ceilDiv 25 10)).flatMap
        (fun q => List.range' q.2.1 (q.2.2 - q.2.1)) = List.range 25)
  ∧ ([(("a" : String), (1 : Nat)), ("b", 2), ("c", 3)].map Prod.snd =
        List.range' 1 (ceilDiv 25 10)) := by
  refine ⟨(part_uploader_ranges_partition 25 10 (by decide) (by decide)).1,
    (part_uploader_ranges_partition 25 10 (by decide) (by decide)).2.2.1,
    (part_uploader_ranges_partition 25 10 (by decide) (by decide)).2.2.2.2
      [⟨true, some "a"⟩, ⟨true, some "b"⟩, ⟨true, some "c"⟩]
      [("a", 1), ("b", 2), ("c", 3)] (by decide) rfl⟩

/-- Every ETag the part_001 part loop records is nonempty. -/
lemma collectPartsAlt_etag_ne_empty :
    ∀ (resps : List PartResp) (idx : Nat) (parts : List (String × Nat)),
      collectPartsAlt resps idx = .ok parts → ∀ q ∈ parts, q.1 ≠ "" := by
  intro resps
  induction resps with
  | nil =>
    intro idx parts h
    simp only [collectPartsAlt] at h
    cases h
    simp
  | cons r rs ih =>
    intro idx parts h
    simp only [collectPartsAlt] at h
    by_cases hr : r.ok = true
    · rw [if_pos hr] at h
      by_cases he : (jsOrStr r.etag "" == "") = true
      · rw [if_pos he] at h; cases h
      · rw [if_neg he] at h
        rcases heq : collectPartsAlt rs (idx + 1) with e | tail
        · rw [heq] at h; cases h
        · rw [heq] at h
          cases h
          intro q hq
          rcases List.mem_cons.mp hq with hq1 | hq2
          · subst hq1
            simpa using he
          · exact ih (idx + 1) tail heq q hq2
    · rw [if_neg hr] at h; cases h

/-- C5 counterexample: in the src/app/page.js variant, a 2xx part response
with no ETag header does not fail the upload — the loop substitutes the
empty string and the part `{ETag:"", PartNumber:1}` reaches the finalize
request. -/
theorem missing_etag_not_fatal_in_main_variant :
    uploadFileMain [{ ok := true, etag := none }] = .ok [("", 1)] := rfl

/-- C5 amended: the src/unnamed/part_001 variant treats a missing (or
empty) ETag on a 2xx response as fatal — every part reaching its finalize
request carries a nonempty ETag, and a missing header aborts the upload
before finalization; the src/app/page.js variant instead records the empty
string and proceeds. -/
theorem alt_variant_missing_etag_fatal :
    (∀ resps parts, uploadFileAlt resps = .ok parts → ∀ q ∈ parts, q.1 ≠ "")
  ∧ uploadFileAlt [{ ok := true, etag := none }] =
      .error "Upload part missing ETag."
  ∧ uploadFileAlt [{ ok := true, etag := some "" }] =
      .error "Upload part missing ETag." := by
  exact ⟨fun resps parts h => collectPartsAlt_etag_ne_empty resps 0 parts h,
    rfl, rfl⟩

/-- C5 amended witness: a successful one-part upload in the part_001
variant records the nonempty ETag "abc". -/
theorem alt_variant_missing_etag_fatal_witness :
    (("abc", 1) : String × Nat).1 ≠ "" :=
  alt_variant_missing_etag_fatal.1 [{ ok := true, etag := some "abc" }]
    [("abc", 1)] rfl ("abc", 1) (by simp)

/-- Whether `buildFromAddress` accepts does not depend on `FROM_NAME`:
the name only decorates an accepted address. -/
lemma buildFromAddress_isSome_fromName (e0 : String) (n : Option String) :
    (buildFromAddress (some e0) n).isSome = (buildFromAddress (some e0) none).isSome := by
  rcases n with _ | s
  · rfl
  · simp only [buildFromAddress]
    split
    · rfl
    · split
      · split
        · simp
        · split
          · split <;> simp
          · rfl
      · split
        · simp
        · split
          · split <;> simp
          · rfl

/-- C4: the sender-address parser accepts the bare address
`ops@example.com` and the display form `Ops Team <ops@example.com>`, and
returns null for `not-an-email` and `Ops Team <not-an-email>`, whatever
`FROM_NAME` is set to. -/
theorem sender_address_examples (n : Option String) :
    (buildFromAddress (some "ops@example.com") n).isSome = true
  ∧ (buildFromAddress (some "Ops Team <ops@example.com>") n).isSome = true
  ∧ buildFromAddress (some "not-an-email") n = none
  ∧ buildFromAddress (some "Ops Team <not-an-email>") n = none := by
  refine ⟨?_, ?_, ?_, ?_⟩
  · rw [buildFromAddress_isSome_fromName]; decide
  · rw [buildFromAddress_isSome_fromName]; decide
  · have h := buildFromAddress_isSome_fromName "not-an-email" n
    have h2 : (buildFromAddress (some "not-an-email") none).isSome = false := by decide
    rw [h2] at h
    rcases ho : buildFromAddress (some "not-an-email") n with _ | v
    · rfl
    · rw [ho] at h
      simp at h
  · have h := buildFromAddress_isSome_fromName "Ops Team <not-an-email>" n
    have h2 : (buildFromAddress (some "Ops Team <not-an-email>") none).isSome = false := by
      decide
    rw [h2] at h
    rcases ho : buildFromAddress (some "Ops Team <not-an-email>") n with _ | v
    · rfl
    · rw [ho] at h
      simp at h

/-- Under any failed required check the src/app/page.js validator reports
an error. -/
lemma validateMain_ne_none (f : FormState) (imgs vids : List String)
    (h : imgs = [] ∨ vids = [] ∨ jsTrim f.playerFirstName = "" ∨
         jsTrim f.playerLastName = "" ∨ jsTrim f.videoCutInstructions = "") :
    validateBeforeSubmitMain f imgs vids ≠ none := by
  intro hc
  unfold validateBeforeSubmitMain at hc
  by_cases h1 : (jsTrim f.playerFirstName == "" || jsTrim f.playerLastName == "") = true
  · rw [if_pos h1] at hc; cases hc
  · rw [if_neg h1] at hc
    by_cases h2 : (jsTrim f.videoCutInstructions == "") = true
    · rw [if_pos h2] at hc; cases hc
    · rw [if_neg h2] at hc
      by_cases h3 : imgs.isEmpty = true
      · rw [if_pos h3] at hc; cases hc
      · rw [if_neg h3] at hc
        by_cases h4 : vids.isEmpty = true
        · rw [if_pos h4] at hc; cases hc
        · simp only [Bool.or_eq_true, beq_iff_eq] at h1
          push_neg at h1
          rcases h with h | h | h | h | h
          · exact h3 (by simp [h])
          · exact h4 (by simp [h])
          · exact h1.1 h
          · exact h1.2 h
          · exact h2 (by simp [h])

/-- Same for the part_001 validator, which also requires the email field. -/
lemma validateAlt_ne_none (f : FormState) (imgs vids : List String)
    (h : jsTrim f.email = "" ∨ validateBeforeSubmitMain f imgs vids ≠ none) :
    validateBeforeSubmitAlt f imgs vids ≠ none := by
  intro hc
  unfold validateBeforeSubmitAlt at hc
  by_cases h1 : (jsTrim f.email == "") = true
  · rw [if_pos h1] at hc; cases hc
  · rw [if_neg h1] at hc
    rcases h with h | h
    · exact h1 (by simp [h])
    · exact h hc

/-- C8: when the selected image list is empty (or the video list is empty,
or a required text field is blank after trimming), client-side validation
fails, an error status is set, and handleSubmit returns before issuing any
network request — in both client variants; the part_001 variant blocks the
same way on a blank email field. -/
theorem empty_selection_blocks_submission (f : FormState) (imgs vids : List String)
    (h : imgs = [] ∨ vids = [] ∨ jsTrim f.playerFirstName = "" ∨
         jsTrim f.playerLastName = "" ∨ jsTrim f.videoCutInstructions = "") :
    ((handleSubmitMain f imgs vids).1.isErrorBlocked = true
      ∧ (handleSubmitMain f imgs vids).2 = false)
  ∧ ((handleSubmitAlt f imgs vids).1.isErrorBlocked = true
      ∧ (handleSubmitAlt f imgs vids).2 = false)
  ∧ (∀ g : FormState, ∀ imgs2 vids2 : List String, jsTrim g.email = "" →
        (handleSubmitAlt g imgs2 vids2).1.isErrorBlocked = true
      ∧ (handleSubmitAlt g imgs2 vids2).2 = false) := by
  refine ⟨?_, ?_, ?_⟩
  · rcases hv : validateBeforeSubmitMain f imgs vids with _ | m
    · exact absurd hv (validateMain_ne_none f imgs vids h)
    · constructor <;> simp [handleSubmitMain, hv, SubmitGate.isErrorBlocked]
  · rcases hv : validateBeforeSubmitAlt f imgs vids with _ | m
    · exact absurd hv
        (validateAlt_ne_none f imgs vids (Or.inr (validateMain_ne_none f imgs vids h)))
    · constructor <;> simp [handleSubmitAlt, hv, SubmitGate.isErrorBlocked]
  · intro g imgs2 vids2 hg
    rcases hv : validateBeforeSubmitAlt g imgs2 vids2 with _ | m
    · exact absurd hv (validateAlt_ne_none g imgs2 vids2 (Or.inl hg))
    · constructor <;> simp [handleSubmitAlt, hv, SubmitGate.isErrorBlocked]

/-- C8 witness: with an entirely blank form and no selected files, both
variants block with an error status and no network request. -/
theorem empty_selection_blocks_submission_witness :
    ((handleSubmitMain (FormState.mk "" "" "" "" "" "" "" "" "" "" "" "" "" "" "" "")
        [] []).1.isErrorBlocked = true
      ∧ (handleSubmitMain (FormState.mk "" "" "" "" "" "" "" "" "" "" "" "" "" "" "" "")
        [] []).2 = false)
  ∧ ((handleSubmitAlt (FormState.mk "" "" "" "" "" "" "" "" "" "" "" "" "" "" "" "")
        [] []).1.isErrorBlocked = true
      ∧ (handleSubmitAlt (FormState.mk "" "" "" "" "" "" "" "" "" "" "" "" "" "" "" "")
        [] []).2 = false) :=
  ⟨(empty_selection_blocks_submission
      (FormState.mk "" "" "" "" "" "" "" "" "" "" "" "" "" "" "" "") [] []
      (Or.inl rfl)).1,
   (empty_selection_blocks_submission
      (FormState.mk "" "" "" "" "" "" "" "" "" "" "" "" "" "" "" "") [] []
      (Or.inl rfl)).2.1⟩

/-- C9: the notifier's failure classification.  Each 400 case (missing API
key, unparseable FROM_EMAIL, invalid OWNER_EMAIL, malformed JSON body)
answers 400 and makes no provider call; with valid configuration and body,
a provider-reported logical error maps to 502, a thrown send to 500, and
success to `{ok:true, id}` with 200 — each with the provider call made.
The final equivalence shows the classification is exact: the provider is
skipped precisely in the 400 cases. -/
theorem notifier_status_classification
    (apiKey fe fn oe : Option String) (body : Except String Payload)
    (tid : String) (send : SendOutcome) :
    (jsTruthyStr apiKey = false →
        (submitHandler apiKey fe fn oe body tid send).1.status = 400
      ∧ (submitHandler apiKey fe fn oe body tid send).2 = none)
  ∧ (jsTruthyStr apiKey = true → buildFromAddress fe fn = none →
        (submitHandler apiKey fe fn oe body tid send).1.status = 400
      ∧ (submitHandler apiKey fe fn oe body tid send).2 = none)
  ∧ (∀ sf, jsTruthyStr apiKey = true → buildFromAddress fe fn = some sf →
        isValidEmailStr (ownerEmailOf oe) = false →
        (submitHandler apiKey fe fn oe body tid send).1.status = 400
      ∧ (submitHandler apiKey fe fn oe body tid send).2 = none)
  ∧ (∀ sf e, jsTruthyStr apiKey = true → buildFromAddress fe fn = some sf →
        isValidEmailStr (ownerEmailOf oe) = true → body = .error e →
        (submitHandler apiKey fe fn oe body tid send).1.status = 400
      ∧ (submitHandler apiKey fe fn oe body tid send).2 = none)
  ∧ (∀ sf p, jsTruthyStr apiKey = true → buildFromAddress fe fn = some sf →
        isValidEmailStr (ownerEmailOf oe) = true → body = .ok p →
        (∀ m, send = .errorResp m →
            submitHandler apiKey fe fn oe body tid send =
              ({ status := 502, ok := false, id := none,
                 error := some (jsOrStr m "Resend reported an error.") },
               some (mkEnvelope sf (ownerEmailOf oe) p tid)))
      ∧ (∀ i, send = .success i →
            submitHandler apiKey fe fn oe body tid send =
              ({ status := 200, ok := true, id := i, error := none },
               some (mkEnvelope sf (ownerEmailOf oe) p tid)))
      ∧ (∀ m, send = .thrown m →
            submitHandler apiKey fe fn oe body tid send =
              ({ status := 500, ok := false, id := none,
                 error := some "Failed to send email with Resend." },
               some (mkEnvelope sf (ownerEmailOf oe) p tid))))
  ∧ ((submitHandler apiKey fe fn oe body tid send).2 = none ↔
        (submitHandler apiKey fe fn oe body tid send).1.status = 400) := by
  refine ⟨?_, ?_, ?_, ?_, ?_, ?_⟩
  · intro hk
    simp [submitHandler, hk]
  · intro hk hb
    simp [submitHandler, hk, hb]
  · intro sf hk hb ho
    simp [submitHandler, hk, hb, ho]
  · intro sf e hk hb ho he
    subst he
    simp [submitHandler, hk, hb, ho]
  · intro sf p hk hb ho hp
    subst hp
    refine ⟨?_, ?_, ?_⟩ <;> intro x hx <;> subst hx <;>
      simp [submitHandler, hk, hb, ho]
  · by_cases hk : jsTruthyStr apiKey = true
    · rcases hb : buildFromAddress fe fn with _ | sf
      · simp [submitHandler, hk, hb]
      · by_cases ho : isValidEmailStr (ownerEmailOf oe) = true
        · rcases body with e | p
          · simp [submitHandler, hk, hb, ho]
          · rcases send with m | i | m <;> simp [submitHandler, hk, hb, ho]
        · rw [Bool.not_eq_true] at ho
          simp [submitHandler, hk, hb, ho]
    · rw [Bool.not_eq_true] at hk
      simp [submitHandler, hk]

/-- C9 witness: a concrete run of each class — missing API key gives 400
with no provider call; with valid configuration, a provider logical error
gives 502, success gives 200 with the id, a thrown send gives 500. -/
theorem notifier_status_classification_witness :
    ((submitHandler none (some "ops@example.com") none (some "o@x.co")
        (.ok { formEmail := .absent, videoUrls := [], imageUrls := [] }) "t"
        (.success none)).1.status = 400
      ∧ (submitHandler none (some "ops@example.com") none (some "o@x.co")
        (.ok { formEmail := .absent, videoUrls := [], imageUrls := [] }) "t"
        (.success none)).2 = none)
  ∧ (submitHandler (some "rk") (some "ops@example.com") none (some "o@x.co")
        (.ok { formEmail := .absent, videoUrls := [], imageUrls := [] }) "t"
        (.errorResp none) =
      ({ status := 502, ok := false, id := none,
         error := some "Resend reported an error." },
       some (mkEnvelope "ops@example.com" (ownerEmailOf (some "o@x.co"))
         { formEmail := .absent, videoUrls := [], imageUrls := [] } "t")))
  ∧ (submitHandler (some "rk") (some "ops@example.com") none (some "o@x.co")
        (.ok { formEmail := .absent, videoUrls := [], imageUrls := [] }) "t"
        (.success (some "id1")) =
      ({ status := 200, ok := true, id := some "id1", error := none },
       some (mkEnvelope "ops@example.com" (ownerEmailOf (some "o@x.co"))
         { formEmail := .absent, videoUrls := [], imageUrls := [] } "t")))
  ∧ (submitHandler (some "rk") (some "ops@example.com") none (some "o@x.co")
        (.ok { formEmail := .absent, videoUrls := [], imageUrls := [] }) "t"
        (.thrown "boom") =
      ({ status := 500, ok := false, id := none,
         error := some "Failed to send email with Resend." },
       some (mkEnvelope "ops@example.com" (ownerEmailOf (some "o@x.co"))
         { formEmail := .absent, videoUrls := [], imageUrls := [] } "t"))) := by
  refine ⟨(notifier_status_classification none (some "ops@example.com") none
      (some "o@x.co") (.ok { formEmail := .absent, videoUrls := [], imageUrls := [] })
      "t" (.success none)).1 (by decide), ?_, ?_, ?_⟩
  · exact ((notifier_status_classification (some "rk") (some "ops@example.com") none
      (some "o@x.co") (.ok { formEmail := .absent, videoUrls := [], imageUrls := [] })
      "t" (.errorResp none)).2.2.2.2.1 "ops@example.com"
      { formEmail := .absent, videoUrls := [], imageUrls := [] }
      (by decide) (by decide) (by decide) rfl).1 none rfl
  · exact ((notifier_status_classification (some "rk") (some "ops@example.com") none
      (some "o@x.co") (.ok { formEmail := .absent, videoUrls := [], imageUrls := [] })
      "t" (.success (some "id1"))).2.2.2.2.1 "ops@example.com"
      { formEmail := .absent, videoUrls := [], imageUrls := [] }
      (by decide) (by decide) (by decide) rfl).2.1 (some "id1") rfl
  · exact ((notifier_status_classification (some "rk") (some "ops@example.com") none
      (some "o@x.co") (.ok { formEmail := .absent, videoUrls := [], imageUrls := [] })
      "t" (.thrown "boom")).2.2.2.2.1 "ops@example.com"
      { formEmail := .absent, videoUrls := [], imageUrls := [] }
      (by decide) (by decide) (by decide) rfl).2.2 "boom" rfl

/-- C10: the envelope carries a reply-to exactly when `form.email` is a
string whose trimmed value matches the email pattern (and then the reply-to
is that trimmed value); an absent, non-string or invalid `form.email`
leaves reply-to unset while the provider is still called with the envelope;
the subject carries ` from <address>` exactly when the trimmed value is
nonempty. -/
theorem envelope_replyto_and_subject (p : Payload) (sf oe tid : String) :
    ((mkEnvelope sf oe p tid).replyTo.isSome = true ↔
        ∃ s, p.formEmail = .str s ∧ isValidEmailStr (jsTrim s) = true)
  ∧ ((mkEnvelope sf oe p tid).replyTo = none ∨
        (mkEnvelope sf oe p tid).replyTo = some (submitterEmailOf p))
  ∧ (submitterEmailOf p ≠ "" →
        (mkEnvelope sf oe p tid).subject =
          "New video submission from " ++ submitterEmailOf p ++ " · #" ++ tid)
  ∧ (submitterEmailOf p = "" →
        (mkEnvelope sf oe p tid).subject = "New video submission · #" ++ tid)
  ∧ (∀ send : SendOutcome, ∀ i : Option String, send = .success i →
        (submitHandler (some "rk") (some "ops@example.com") none (some "o@x.co")
          (.ok p) tid send).2 =
          some (mkEnvelope "ops@example.com" (ownerEmailOf (some "o@x.co")) p tid)) := by
  refine ⟨?_, ?_, ?_, ?_, ?_⟩
  · rcases hp : p.formEmail with s | _ | _
    · simp only [mkEnvelope, submitterEmailOf, hp]
      by_cases hv : isValidEmailStr (jsTrim s) = true
      · simp [hv]
      · rw [Bool.not_eq_true] at hv
        simp [hv]
    · simp [mkEnvelope, submitterEmailOf, hp]
      decide
    · simp [mkEnvelope, submitterEmailOf, hp]
      decide
  · simp only [mkEnvelope]
    by_cases hv : isValidEmailStr (submitterEmailOf p) = true
    · right; simp [hv]
    · left; rw [Bool.not_eq_true] at hv; simp [hv]
  · intro h
    simp only [mkEnvelope, mkSubject]
    rw [if_neg (by simpa using h)]
    have hA : ("New video submission" ++ " from " : String) =
        "New video submission from " := rfl
    rw [← String.append_assoc, hA]
  · intro h
    simp only [mkEnvelope, mkSubject]
    rw [if_pos (by simpa using h)]
    rfl
  · intro send i hs
    subst hs
    have h1 : buildFromAddress (some "ops@example.com") none = some "ops@example.com" := by
      decide
    have h2 : isValidEmailStr (ownerEmailOf (some "o@x.co")) = true := by decide
    have h0 : jsTruthyStr (some "rk") = true := by decide
    simp [submitHandler, h0, h1, h2]

/-- C10 witness: a payload with the valid address `" a@b.co "` gets
reply-to `a@b.co` and a subject naming it; an absent `form.email` gets no
reply-to but the provider is still called. -/
theorem envelope_replyto_and_subject_witness :
    ((mkEnvelope "f@x.co" "o@x.co"
        { formEmail := .str " a@b.co ", videoUrls := [], imageUrls := [] }
        "t").subject = "New video submission from a@b.co · #t")
  ∧ ((mkEnvelope "f@x.co" "o@x.co"
        { formEmail := .absent, videoUrls := [], imageUrls := [] }
        "t").subject = "New video submission · #t")
  ∧ ((submitHandler (some "rk") (some "ops@example.com") none (some "o@x.co")
        (.ok { formEmail := .nonString, videoUrls := [], imageUrls := [] }) "t"
        (.success none)).2 =
      some (mkEnvelope "ops@example.com" (ownerEmailOf (some "o@x.co"))
        { formEmail := .nonString, videoUrls := [], imageUrls := [] } "t")) := by
  refine ⟨?_, ?_, ?_⟩
  · exact ((envelope_replyto_and_subject
      { formEmail := .str " a@b.co ", videoUrls := [], imageUrls := [] }
      "f@x.co" "o@x.co" "t").2.2.1 (by decide)).trans (by decide)
  · exact ((envelope_replyto_and_subject
      { formEmail := .absent, videoUrls := [], imageUrls := [] }
      "f@x.co" "o@x.co" "t").2.2.2.1 (by decide)).trans (by decide)
  · exact (envelope_replyto_and_subject
      { formEmail := .nonString, videoUrls := [], imageUrls := [] }
      "f@x.co" "o@x.co" "t").2.2.2.2 (.success none) none rfl

end VU
